import Mathlib

/-!
A shallow embedding of the problemo error-enrichment library's core
(`Problem` / `Cause` / `Problems`), translated from the repository sources:
`src/problem.rs`, `src/cause.rs`, `src/captured.rs`, `src/problems.rs`,
`src/cause/cause.rs`, `src/attachment/attachments.rs`.

Modelling decisions:
* A concrete Rust error type is identified by a `Nat` tag (its `TypeId`).
* A `dyn Error` value is modelled as an `ErrorFrame` (concrete type tag,
  value identity for `PartialEq`, `Display` string) together with the
  finite list of frames reachable through its transitive
  `Error::source()` links (`sources`, shallowest first).  An error has at
  most one source, so the reachable sources form exactly such a list.
* `Box<dyn Any>` attachments are modelled by a type tag plus a value.
* `VecDeque<Cause>` is modelled as a `List Cause`, head = front = top.
-/

namespace Problemo

/-- One `dyn Error` value, without its source chain: its concrete type's
`TypeId` tag, a value identity (two values of the same concrete type are
`PartialEq`-equal iff the identities agree), and its `Display` rendering. -/
structure ErrorFrame where
  ty : Nat
  val : Nat
  disp : String
deriving DecidableEq

/-- `CapturedError` (`src/captured.rs`: `Box<dyn Error>`): the error value
itself (`top`) plus the frames of its transitive `Error::source()` chain,
shallowest first. -/
structure CapturedError where
  top : ErrorFrame
  sources : List ErrorFrame
deriving DecidableEq

/-- The frames reachable from a captured error: the error itself, then its
source, the source's source, and so on. -/
def CapturedError.allFrames (e : CapturedError) : List ErrorFrame :=
  e.top :: e.sources

/-- `<dyn Error>::downcast_ref::<T>()`: succeeds exactly when the value's
concrete type is `t`, yielding the value itself (no source traversal). -/
def CapturedError.downcast_ref (e : CapturedError) (t : Nat) : Option ErrorFrame :=
  if e.top.ty == t then some e.top else none

/-- `PartialEq` comparison of two error values of the same concrete type
(`error == *cause.error` in `Problem::has`). -/
def valueEq (a b : ErrorFrame) : Bool :=
  a.ty == b.ty && a.val == b.val

/-- `CapturedAttachment` (`src/captured.rs`: `Box<dyn Any>`): a type-erased
attachment value, identified by its concrete type tag. -/
structure Attachment where
  aty : Nat
  aval : Nat
deriving DecidableEq

/-- The `TypeId` tag reserved for the `backtrace::Backtrace` type. -/
def backtraceTypeId : Nat := 0

/-- `Backtrace::new()`: a fresh backtrace value (its content is irrelevant
to the model; only its concrete type matters). -/
def backtraceNew : Attachment :=
  { aty := backtraceTypeId, aval := 0 }

/-- `Cause` (`src/cause.rs`): one link in a causation chain — one captured
error plus an append-ordered list of captured attachments. -/
structure Cause where
  error : CapturedError
  attachments : List Attachment
deriving DecidableEq

/-- `impl From<ErrorT> for Cause` (`src/cause.rs` lines 18–28): wraps the
error with an empty attachment list. -/
def Cause.ofError (e : CapturedError) : Cause :=
  { error := e, attachments := [] }

/-- `Cause::attach_backtrace` (`src/cause/cause.rs` lines 58–63): attach a
fresh backtrace only if no attachment of the `Backtrace` type is already
present (`attachment_of_type::<Backtrace>().is_none()`,
`src/attachment/attachments.rs`). -/
def Cause.attach_backtrace (c : Cause) : Cause :=
  if (c.attachments.find? (fun a => a.aty == backtraceTypeId)).isNone then
    { c with attachments := c.attachments ++ [backtraceNew] }
  else
    c

/-- `downcast_error_or_source` (`src/problem.rs` lines 208–218): try
`downcast_ref` on the error itself, otherwise recurse into its
`source()` chain (here: walk the flattened frame list, shallowest
first). -/
def downcast_error_or_source (t : Nat) : List ErrorFrame → Option ErrorFrame
  | [] => none
  | f :: rest => if f.ty == t then some f else downcast_error_or_source t rest

/-- `Problem` (`src/problem.rs`): owns the causation chain, a
`VecDeque<Cause>` ordered from top (front) to root (back). -/
structure Problem where
  causes : List Cause
deriving DecidableEq

/-- `Problem::top`: the front of the causation chain. -/
def Problem.top (p : Problem) : Option Cause :=
  p.causes.head?

/-- `Problem::root`: the back of the causation chain. -/
def Problem.root (p : Problem) : Option Cause :=
  p.causes.getLast?

/-- `Problem::errors` (`src/problem.rs` lines 51–53): the chain's captured
errors, top to root, skipping over `source()`. -/
def Problem.errors (p : Problem) : List CapturedError :=
  p.causes.map (fun c => c.error)

/-- The result of `Problem::get`: a `CauseRef` (`src/cause.rs`) — depth in
the chain, the matched error (possibly found inside a `source()` chain),
and the matching cause's attachments. -/
structure CauseRefM where
  depth : Nat
  error : ErrorFrame
  attachments : List Attachment
deriving DecidableEq

/-- Loop body of `Problem::get` (`src/problem.rs` lines 58–73): iterate the
causes with their depth, returning the first whose error — or an error
reachable through its `source()` chain — has concrete type `t`. -/
def getAux (t : Nat) (depth : Nat) : List Cause → Option CauseRefM
  | [] => none
  | c :: rest =>
    match downcast_error_or_source t c.error.allFrames with
    | some f => some { depth := depth, error := f, attachments := c.attachments }
    | none => getAux t (depth + 1) rest

/-- `Problem::get` (`src/problem.rs` lines 58–73): the first cause with an
error of type `t`, recursing into `source()`. -/
def Problem.get (p : Problem) (t : Nat) : Option CauseRefM :=
  getAux t 0 p.causes

/-- `Problem::has` (`src/problem.rs` lines 78–85):
`self.get().map(|cause| error == *cause.error).unwrap_or(false)` — find
the first error of the target's concrete type and compare only that one
by value. -/
def Problem.has (p : Problem) (target : ErrorFrame) : Bool :=
  match p.get target.ty with
  | some cr => valueEq target cr.error
  | none => false

/-- `Problem::has_type` (`src/problem.rs` lines 90–100): whether any
cause's error, or an error reachable through its `source()` chain,
has concrete type `t`. -/
def Problem.has_type (p : Problem) (t : Nat) : Bool :=
  p.causes.any (fun c => (downcast_error_or_source t c.error.allFrames).isSome)

/-- `Problem::via` (`src/problem.rs` lines 103–109): push a new cause built
from the error onto the front (new top). -/
def Problem.via (p : Problem) (e : CapturedError) : Problem :=
  { causes := Cause.ofError e :: p.causes }

/-- `Problem::behind` (`src/problem.rs` lines 112–116): `self.causes`
absorbs `problem.causes` at its back (`VecDeque::append`), and the
combined deque becomes the result's chain — so the receiver `self`'s
causes come first (top side) and the argument's causes follow (root
side). -/
def Problem.behind (p : Problem) (problem : Problem) : Problem :=
  { causes := p.causes ++ problem.causes }

/-- `Problem::with` (`src/problem.rs` lines 143–151): append the attachment
to the top cause's attachment list; a no-op when the chain is empty.
(`with` is a reserved word in Lean, hence the name.) -/
def Problem.withAttachment (p : Problem) (a : Attachment) : Problem :=
  match p.causes with
  | [] => p
  | c :: rest => { causes := { c with attachments := c.attachments ++ [a] } :: rest }

/-- `Problem::with_backtrace` (`src/problem.rs` lines 165–167):
`self.with(Backtrace::new())` — unconditionally attaches a fresh
backtrace to the top cause.  Note that it does not call
`Cause::attach_backtrace` (`src/cause/cause.rs` lines 58–63), which
attaches only when no backtrace is present. -/
def Problem.with_backtrace (p : Problem) : Problem :=
  p.withAttachment backtraceNew

/-- `impl From<ErrorT> for Problem` (`src/problem.rs` lines 194–204): wrap
the error as the sole cause, then `.with_backtrace()`. -/
def Problem.fromError (e : CapturedError) : Problem :=
  Problem.with_backtrace { causes := [Cause.ofError e] }

/-- `Vec::join(sep)` as used by the `Display` impl. -/
def joinSep (sep : String) : List String → String
  | [] => ""
  | [s] => s
  | s :: rest => s ++ sep ++ joinSep sep rest

/-- `impl fmt::Display for Problem` (`src/problem.rs` lines 182–192): each
cause's error's `Display` form, top to root, joined by `": "`.
(`Display` of a `dyn Error` renders the error itself, not its
sources.) -/
def Problem.display (p : Problem) : String :=
  joinSep ": " (p.causes.map (fun c => c.error.top.disp))

/-- All error frames reachable from a problem in search order: causes top
to root and, within each cause, the cause's own error followed by its
`source()` chain, shallowest first.  (Specification-side notion of
"reachable error" used by the chain-search claims.) -/
def Problem.reachableFrames (p : Problem) : List ErrorFrame :=
  p.causes.flatMap (fun c => c.error.allFrames)

/-- The first reachable error of concrete type `t`, in search order
(specification-side). -/
def Problem.firstOfType (p : Problem) (t : Nat) : Option ErrorFrame :=
  p.reachableFrames.find? (fun f => f.ty == t)

/-- `std::any::TypeId` values that occur in the accumulator model: the
`TypeId` of a concrete (sized) error type `T`, or the `TypeId` of the
type `Box<dyn Error + Send + Sync>` itself. -/
inductive TypeId where
  | concrete : Nat → TypeId
  | boxDynErrorSendSync : TypeId
deriving DecidableEq, BEq

/-- The call `error.type_id()` at `src/problems.rs` line 43, where
`error: &CapturedError = &Box<dyn Error + Send + Sync>`.  Rust method
resolution cannot pick `Any::type_id` at the step `&Box<…>` (that `Self`
would have to be `'static`), so it resolves at the next autoderef step,
`Box<dyn Error + Send + Sync>`, via the blanket
`impl<T: 'static + ?Sized> Any for T` — the "smart pointers and
`dyn Any`" caveat documented on `std::any::Any`.  The result is the
`TypeId` of the box type itself, a constant independent of the boxed
error; the boxed error's concrete `TypeId` is never consulted. -/
def CapturedError.type_id (_ : CapturedError) : TypeId :=
  TypeId.boxDynErrorSendSync

/-- `Problems` (`src/problems.rs`): the accumulator — collected problems
plus the set of critical error `TypeId`s (a `HashSet`, modelled as a
list queried by membership). -/
structure Problems where
  problems : List Problem
  critical_error_types : List TypeId
deriving DecidableEq

/-- `Problems::default()`: empty accumulator. -/
def Problems.empty : Problems :=
  { problems := [], critical_error_types := [] }

/-- `Problems::handle_type_as_critical::<ErrorT>` (`src/problems.rs` lines
26–31): insert `TypeId::of::<ErrorT>()` — the `TypeId` of the concrete
(sized) registered type — into the critical set. -/
def Problems.handle_type_as_critical (ps : Problems) (t : Nat) : Problems :=
  { ps with critical_error_types := TypeId.concrete t :: ps.critical_error_types }

/-- `Problems::is_error_critical` (`src/problems.rs` lines 42–44):
`self.critical_error_types.contains(&error.type_id())`. -/
def Problems.is_error_critical (ps : Problems) (e : CapturedError) : Bool :=
  ps.critical_error_types.contains e.type_id

/-- `Problems::is_critical` (`src/problems.rs` lines 34–39): test the top
cause's error, `false` for an empty chain. -/
def Problems.is_critical (ps : Problems) (p : Problem) : Bool :=
  (p.top.map (fun c => ps.is_error_critical c.error)).getD false

/-- `Problems::add` (`src/problems.rs` lines 47–52): push the problem onto
the internal list. -/
def Problems.add (ps : Problems) (p : Problem) : Problems :=
  { ps with problems := ps.problems ++ [p] }

/-- `Problems::is_empty` (`src/problems.rs` lines 55–57). -/
def Problems.is_empty (ps : Problems) : Bool :=
  ps.problems.isEmpty

/-- `Problems::check` (`src/problems.rs` lines 60–62): `Ok(())` iff the
list is empty, otherwise fail with the whole accumulator. -/
def Problems.check (ps : Problems) : Except Problems Unit :=
  if ps.is_empty then Except.ok () else Except.error ps

/-- `impl ProblemReceiver for Problems`, `give` (`src/problems.rs` lines
66–78): reject (propagate the problem) if it is critical, otherwise
store it and succeed.  Modelled as (result, updated accumulator). -/
def Problems.give (ps : Problems) (p : Problem) : Except Problem Unit × Problems :=
  match ps.is_critical p with
  | true => (Except.error p, ps)
  | false => (Except.ok (), ps.add p)

/-! Helper lemmas shared by the claim theorems. -/

/-- The recursion of `downcast_error_or_source` over the flattened frame
list is exactly a first-match search by type tag. -/
theorem downcast_eq_find (t : Nat) (l : List ErrorFrame) :
    downcast_error_or_source t l = l.find? (fun f => f.ty == t) := by
  induction l with
  | nil => rfl
  | cons f rest ih =>
    rw [downcast_error_or_source, List.find?_cons]
    cases h : f.ty == t <;> simp [h, ih]

/-- The cause-by-cause loop of `Problem::get` finds exactly the first
frame of the requested type in the flattened search order. -/
theorem getAux_map_error (t : Nat) (cs : List Cause) : ∀ d : Nat,
    (getAux t d cs).map (fun cr => cr.error)
      = (cs.flatMap (fun c => c.error.allFrames)).find? (fun f => f.ty == t) := by
  induction cs with
  | nil => intro d; rfl
  | cons c rest ih =>
    intro d
    rw [List.flatMap_cons, List.find?_append]
    rw [getAux, downcast_eq_find]
    cases h : (c.error.allFrames).find? (fun f => f.ty == t) with
    | none => simp [h, ih]
    | some f => simp [h]

/-- `Problem::get` returns the first reachable error of the requested
type. -/
theorem get_map_error (p : Problem) (t : Nat) :
    (p.get t).map (fun cr => cr.error) = p.firstOfType t :=
  getAux_map_error t p.causes 0

/-- `Problem::has_type` is the existence of a reachable frame of the
requested type. -/
theorem has_type_iff (p : Problem) (t : Nat) :
    p.has_type t = true ↔ ∃ f ∈ p.reachableFrames, f.ty = t := by
  rw [Problem.has_type, List.any_eq_true]
  constructor
  · rintro ⟨c, hc, hsome⟩
    rw [downcast_eq_find] at hsome
    obtain ⟨f, hf, hty⟩ := List.find?_isSome.mp hsome
    exact ⟨f, List.mem_flatMap.mpr ⟨c, hc, hf⟩, by simpa using hty⟩
  · rintro ⟨f, hf, hty⟩
    obtain ⟨c, hc, hfc⟩ := List.mem_flatMap.mp hf
    refine ⟨c, hc, ?_⟩
    rw [downcast_eq_find]
    exact List.find?_isSome.mpr ⟨f, hfc, by simp [hty]⟩

/-- `Problem::get` succeeds exactly when a reachable frame of the
requested type exists. -/
theorem get_isSome_iff (p : Problem) (t : Nat) :
    (p.get t).isSome = true ↔ ∃ f ∈ p.reachableFrames, f.ty = t := by
  rw [← Option.isSome_map (f := fun cr : CauseRefM => cr.error), Option.map_eq_map,
    get_map_error, Problem.firstOfType, List.find?_isSome]
  constructor
  · rintro ⟨f, hf, hty⟩
    exact ⟨f, hf, by simpa using hty⟩
  · rintro ⟨f, hf, hty⟩
    exact ⟨f, hf, by simp [hty]⟩

/-- `Cause::attach_backtrace` (`src/cause/cause.rs`) is idempotent: a
second call finds the backtrace attached by the first and does
nothing.  (Context for C3: `Problem::with_backtrace` in
`src/problem.rs` does not use this guarded path.) -/
theorem attach_backtrace_idempotent (c : Cause) :
    (c.attach_backtrace).attach_backtrace = c.attach_backtrace := by
  unfold Cause.attach_backtrace
  cases h : c.attachments.find? (fun a => a.aty == backtraceTypeId) with
  | some a => simp [h]
  | none =>
    simp only [h, Option.isNone_none, if_true]
    rw [List.find?_append, h]
    simp [backtraceNew, backtraceTypeId]

/-! The claims. -/

/-- C1: against the claim, registering a concrete error type as critical
has no effect on `give`: the call `error.type_id()` in
`Problems::is_error_critical` (`src/problems.rs` line 43) yields the
constant `TypeId` of `Box<dyn Error + Send + Sync>` itself, which never
equals a registered concrete type's `TypeId`.  Evaluated at the failing
input — an accumulator with concrete type tag 7 registered as critical,
given a problem whose top cause's error has exactly that concrete
type — `give` returns success and stores the problem (count 0 → 1)
instead of propagating it. -/
theorem c1_critical_give_stores_anyway :
    ((Problems.empty.handle_type_as_critical 7).give
        (Problem.fromError ⟨⟨7, 1, "critical"⟩, []⟩)).1 = Except.ok ()
      ∧ ((Problems.empty.handle_type_as_critical 7).give
          (Problem.fromError ⟨⟨7, 1, "critical"⟩, []⟩)).2.problems.length = 1 :=
  ⟨rfl, rfl⟩

/-- C2 counterexample: the claim says `has(v)` is true iff SOME reachable
error is of `v`'s concrete type and equal by value to `v`.  On the chain
`[top: (ty 5, val 1), root: (ty 5, val 2)]` with target `(ty 5, val 2)`,
an equal error is reachable (the root), yet `has` returns `false`,
because `Problem::has` compares only the first error of the target's
type found by `Problem::get` (the top one, which differs in value). -/
theorem c2_counterexample_later_equal_error_missed :
    (Problem.mk [Cause.ofError ⟨⟨5, 1, "top"⟩, []⟩,
        Cause.ofError ⟨⟨5, 2, "root"⟩, []⟩]).has ⟨5, 2, "root"⟩ = false
      ∧ ∃ f ∈ (Problem.mk [Cause.ofError ⟨⟨5, 1, "top"⟩, []⟩,
          Cause.ofError ⟨⟨5, 2, "root"⟩, []⟩]).reachableFrames,
          valueEq f ⟨5, 2, "root"⟩ = true := by
  refine ⟨rfl, ⟨5, 2, "root"⟩, ?_, rfl⟩
  simp [Problem.reachableFrames, CapturedError.allFrames, Cause.ofError]

/-- C2 (amended): `has(v)` returns true iff the FIRST reachable error of
`v`'s concrete type — searching causes top to root and, within each
cause, the cause's own error then its `source()` chain, shallowest
first — is equal by value to `v`; a later equal error of the same type
is never compared. -/
theorem c2_has_checks_only_first_type_match (p : Problem) (v : ErrorFrame) :
    p.has v = ((p.firstOfType v.ty).map (fun f => valueEq v f)).getD false := by
  rw [Problem.has, ← get_map_error]
  cases h : p.get v.ty <;> simp [h]

/-- C3: against the claim, `Problem::with_backtrace`
(`src/problem.rs` lines 165–167) is `self.with(Backtrace::new())` —
unconditional — and never calls the guarded `Cause::attach_backtrace`
(`src/cause/cause.rs` lines 58–63).  Evaluated at the failing input — a
problem with one cause and no attachments — two successive
`with_backtrace()` calls leave TWO backtrace attachments on the top
cause, not one. -/
theorem c3_with_backtrace_attaches_twice :
    (((Problem.mk [Cause.ofError ⟨⟨1, 0, "e"⟩, []⟩]).with_backtrace).with_backtrace).causes.map
        (fun c => (c.attachments.filter (fun a => a.aty == backtraceTypeId)).length)
      = [2] := rfl

/-- C4: converting an error value into a `Problem` (`impl From<ErrorT> for
Problem`, `src/problem.rs` lines 194–204) produces exactly one cause,
and that cause's error downcasts back to the error's concrete type,
yielding the original value. -/
theorem c4_from_error_single_cause_downcasts_back (e : CapturedError) :
    (Problem.fromError e).causes.length = 1
      ∧ (Problem.fromError e).causes.map (fun c => c.error.downcast_ref e.top.ty)
          = [some e.top] := by
  refine ⟨rfl, ?_⟩
  simp [Problem.fromError, Problem.with_backtrace, Problem.withAttachment,
    Cause.ofError, CapturedError.downcast_ref]

/-- C5: after `via(e2).via(e3)` on a problem whose chain is the single
root cause `c1`, `errors()` yields `[e3, e2, e1]` top to root, and
`Display` renders the errors' display forms joined by `": "`, i.e.
`"e3: e2: e1"`. -/
theorem c5_via_order_and_display (c1 : Cause) (e2 e3 : CapturedError) :
    (((Problem.mk [c1]).via e2).via e3).errors = [e3, e2, c1.error]
      ∧ (((Problem.mk [c1]).via e2).via e3).display
          = e3.top.disp ++ ": " ++ e2.top.disp ++ ": " ++ c1.error.top.disp :=
  ⟨rfl, by simp [Problem.display, Problem.via, Cause.ofError, joinSep, String.append_assoc]⟩

/-- C6: `with` attaches to the current top cause only: after
`with(a1).via(e2).with(a2)` on a problem whose top cause is `c1`, `a1`
sits on `c1` and `a2` on `e2`'s new cause, and no other cause changes;
on an empty chain `with` is a no-op. -/
theorem c6_with_attaches_to_current_top (c1 : Cause) (rest : List Cause)
    (a1 a2 : Attachment) (e2 : CapturedError) :
    ((((Problem.mk (c1 :: rest)).withAttachment a1).via e2).withAttachment a2).causes
        = { error := e2, attachments := [a2] }
            :: { c1 with attachments := c1.attachments ++ [a1] } :: rest
      ∧ (Problem.mk []).withAttachment a1 = Problem.mk [] :=
  ⟨rfl, rfl⟩

/-- C7: `has_type` is true exactly when some cause's error, or an error
transitively reachable through `source()` links, has the requested
concrete type; and `get` returns no match exactly when `has_type` is
false. -/
theorem c7_has_type_reaches_sources (p : Problem) (t : Nat) :
    (p.has_type t = true ↔ ∃ f ∈ p.reachableFrames, f.ty = t)
      ∧ (p.get t = none ↔ p.has_type t = false) := by
  refine ⟨has_type_iff p t, ?_⟩
  rw [← Option.not_isSome_iff_eq_none, ← Bool.not_eq_true (p.has_type t)]
  exact not_congr ((get_isSome_iff p t).trans (has_type_iff p t).symm)

/-- C8: splicing two problems with `behind` never drops a cause: the
result's chain length is the sum of the two lengths, and each input's
causes appear in the result contiguously in their original relative
order (the receiver's first, the argument's after). -/
theorem c8_behind_drops_no_cause (p q : Problem) :
    (p.behind q).causes.length = p.causes.length + q.causes.length
      ∧ (p.behind q).causes.take p.causes.length = p.causes
      ∧ (p.behind q).causes.drop p.causes.length = q.causes :=
  ⟨List.length_append _ _, List.take_left _ _, List.drop_left _ _⟩

/-- C9: `check()` succeeds exactly when the accumulator holds zero
problems; after `add`ing a problem, `check()` fails with the
accumulator itself, which contains that problem. -/
theorem c9_check_empty_iff (ps : Problems) (p : Problem) :
    (ps.check = Except.ok () ↔ ps.problems = [])
      ∧ (ps.add p).check = Except.error (ps.add p)
      ∧ p ∈ (ps.add p).problems := by
  refine ⟨?_, ?_, ?_⟩
  · cases hps : ps.problems <;>
      simp [Problems.check, Problems.is_empty, hps]
  · simp [Problems.check, Problems.is_empty, Problems.add]
  · simp [Problems.add]

/-- C10: `p.behind(q)` concatenates `p`'s causes in front of `q`'s: the
result's chain is `p`'s causes followed by `q`'s, `p`'s top cause is the
result's top, and `q`'s root cause is the result's root. -/
theorem c10_behind_receiver_deeper (p q : Problem)
    (hp : p.causes ≠ []) (hq : q.causes ≠ []) :
    (p.behind q).causes = p.causes ++ q.causes
      ∧ (p.behind q).top = p.top
      ∧ (p.behind q).root = q.root := by
  refine ⟨rfl, ?_, ?_⟩
  · show (p.causes ++ q.causes).head? = p.causes.head?
    rw [List.head?_append]
    cases hcp : p.causes with
    | nil => exact absurd hcp hp
    | cons a l => simp
  · show (p.causes ++ q.causes).getLast? = q.causes.getLast?
    rw [List.getLast?_append]
    cases hlq : q.causes.getLast? with
    | none => exact absurd (List.getLast?_eq_none_iff.mp hlq) hq
    | some a => simp

/-- Witness for C10 at concrete one-cause problems. -/
theorem c10_behind_receiver_deeper_witness :
    ((Problem.mk [Cause.ofError ⟨⟨1, 0, "p"⟩, []⟩]).behind
          (Problem.mk [Cause.ofError ⟨⟨2, 0, "q"⟩, []⟩])).causes
        = (Problem.mk [Cause.ofError ⟨⟨1, 0, "p"⟩, []⟩]).causes
            ++ (Problem.mk [Cause.ofError ⟨⟨2, 0, "q"⟩, []⟩]).causes
      ∧ ((Problem.mk [Cause.ofError ⟨⟨1, 0, "p"⟩, []⟩]).behind
            (Problem.mk [Cause.ofError ⟨⟨2, 0, "q"⟩, []⟩])).top
          = (Problem.mk [Cause.ofError ⟨⟨1, 0, "p"⟩, []⟩]).top
      ∧ ((Problem.mk [Cause.ofError ⟨⟨1, 0, "p"⟩, []⟩]).behind
            (Problem.mk [Cause.ofError ⟨⟨2, 0, "q"⟩, []⟩])).root
          = (Problem.mk [Cause.ofError ⟨⟨2, 0, "q"⟩, []⟩]).root :=
  c10_behind_receiver_deeper _ _ (List.cons_ne_nil _ _) (List.cons_ne_nil _ _)

end Problemo
